import Mathlib

/-!
Verification of the Limine bootloader installation routine
(`InstallerHack._add_limine_bootloader` in `src/main.py`) of the installer
repository.  The routine is embedded shallowly as a pure function from an
environment (firmware mode, device-resolution oracles, injected failure
outcomes for the two guarded deployment blocks) and the call arguments
(boot partition, optional EFI partition, derived root kernel parameters,
kernel list, target root path) to a result holding the ordered trace of
performed effects, the outcome (success or a raised error), and the final
`helper_flags` bootloader entry.
-/

namespace LimineInstall

/-- Partition data used by the routine: device path, the safe device path
used for parent resolution, and the mount point.  The mount point is the
absolute path string (for example "/boot/efi"); `None` in Python is `none`
here.  Python `not efi_partition.mountpoint` is true exactly on `None`
(a `Path` object is always truthy). -/
structure PartitionModification where
  dev_path : String
  safe_dev_path : String
  mountpoint : Option String
deriving DecidableEq, Repr

/-- Arguments of `_add_limine_bootloader`, together with the data the
routine reads from `self`: `self.target` (the target root path, without a
trailing slash), `self.kernels`, and the list returned by
`self._get_kernel_params(root)` (derived by the external installer library
from the root specification, hence an input here). -/
structure Args where
  boot_partition : PartitionModification
  efi_partition : Option PartitionModification
  root_kernel_params : List String
  kernels : List String
  target : String

/-- Environment of one run: the firmware mode reported by
`SysInfo.has_uefi()`, the two device-resolution collaborators from
`disk.device_handler`, and, for each of the two `try` blocks of the
routine, an optional injected failure (`some err` means some step inside
that block raises an exception whose rendered message is `err`). -/
structure Env where
  has_uefi : Bool
  get_parent_device_path : String → String
  get_unique_path_for_device : String → Option String
  efi_deploy_err : Option String
  bios_deploy_err : Option String

/-- Errors the routine can raise: `ValueError` for the two EFI
precondition checks, `exceptions.DiskError` for wrapped deployment
failures. -/
inductive InstallError where
  | valueError (msg : String)
  | diskError (msg : String)
deriving DecidableEq, Repr

/-- Whether an error is of the disk/boot-deployment kind. -/
def InstallError.isDiskError : InstallError → Bool
  | InstallError.diskError _ => true
  | InstallError.valueError _ => false

/-- Effects the routine performs, in program order.
`pacmanStrap pkg` is `self.pacman.strap(pkg)`: it installs the named
package into the target root, writing the files of that package under the
target (this is how `/usr/share/limine` comes to exist there).
`mkdirTarget` is a `mkdir(parents=True, exist_ok=True)` on a directory
under the target; `copyToTarget src dstDir` is `shutil.copy` of `src`
into the directory `dstDir`, both paths under the target;
`sysCommand` is a `SysCommand` invocation; `writeFile path contents` is
`path.write_text(contents)`; `setHelperFlag` is an assignment into
`self.helper_flags`. -/
inductive Event where
  | pacmanStrap (pkg : String)
  | mkdirTarget (path : String)
  | copyToTarget (src dstDir : String)
  | sysCommand (cmd : String)
  | writeFile (path contents : String)
  | setHelperFlag (key value : String)
deriving DecidableEq, Repr

/-- Result of a run: the effects performed (in order, up to the point of
a raise), the outcome (`none` = returned normally, `some e` = raised
`e`), and the value of `helper_flags` at key `bootloader` afterwards
(`none` = never assigned by this call). -/
structure Result where
  events : List Event
  outcome : Option InstallError
  bootloader_flag : Option String
deriving Repr

/-- Contents of the pacman hook file `99-limine.hook` written by the
routine, as a function of the embedded shell command. -/
def hook_contents (hook_command : String) : String :=
  "[Trigger]\nOperation = Install\nOperation = Upgrade\nType = Package\nTarget = limine\n\n[Action]\nDescription = Deploying Limine after upgrade...\nWhen = PostTransaction\nExec = /bin/sh -c \"" ++ hook_command ++ "\"\n"

/-- The four `KEY=VALUE` entry lines of one boot-menu stanza (the list
`entry` in the source), for a kernel, a variant suffix and the joined
kernel parameter string. -/
def entryLines (kernel variant kernel_params : String) : List String :=
  ["PROTOCOL=linux",
   "KERNEL_PATH=boot:///vmlinuz-" ++ kernel,
   "MODULE_PATH=boot:///initramfs-" ++ kernel ++ variant ++ ".img",
   "CMDLINE=" ++ kernel_params]

/-- Text appended to `config_contents` for one (kernel, variant) pair:
a blank line, the label line, then the four entry lines indented by four
spaces, each terminated by a newline. -/
def stanzaText (kernel variant kernel_params : String) : String :=
  "\n:Polaris Linux " ++ variant ++ "\n" ++
    String.intercalate "\n" ((entryLines kernel variant kernel_params).map (fun it => "    " ++ it)) ++ "\n"

/-- Text produced by the nested `for kernel in self.kernels: for variant
in ("", "fallback")` loop. -/
def config_body : List String → String → String
  | [], _ => ""
  | k :: ks, kp => stanzaText k "" kp ++ (stanzaText k "fallback" kp ++ config_body ks kp)

/-- Full contents of `limine.cfg`: the timeout line followed by the loop
body. -/
def config_contents (kernels : List String) (kernel_params : String) : String :=
  "TIMEOUT=5\n" ++ config_body kernels kernel_params

/-- Joined kernel parameter string: the root-derived parameters with
"quiet" and then "splash" appended, joined by single spaces. -/
def kernel_params_str (root_kernel_params : List String) : String :=
  String.intercalate " " (root_kernel_params ++ ["quiet", "splash"])

/-- BIOS-mode resolved deployment device: the parent whole-disk device of
the boot partition, replaced by the unique alias path when
`get_unique_path_for_device` returns one. -/
def resolvedParent (env : Env) (a : Args) : String :=
  match env.get_unique_path_for_device
      (env.get_parent_device_path a.boot_partition.safe_dev_path) with
  | some unique_path => unique_path
  | none => env.get_parent_device_path a.boot_partition.safe_dev_path

/-- Result of a run that raises `e` after performing `events`. -/
def mkFail (events : List Event) (e : InstallError) : Result :=
  ⟨events, some e, none⟩

/-- Common tail of both firmware branches: write the hook file, build and
write `limine.cfg`, record the bootloader in `helper_flags`. -/
def finishInstall (a : Args) (deployEvents : List Event) (hook_command : String) : Result :=
  ⟨deployEvents ++
     [Event.mkdirTarget (a.target ++ "/etc/pacman.d/hooks"),
      Event.writeFile (a.target ++ "/etc/pacman.d/hooks/99-limine.hook") (hook_contents hook_command),
      Event.writeFile (a.target ++ "/boot/limine.cfg")
        (config_contents a.kernels (kernel_params_str a.root_kernel_params)),
      Event.setHelperFlag "bootloader" "limine"],
   none, some "limine"⟩

/-- Shallow embedding of `InstallerHack._add_limine_bootloader`.  The EFI
mount point is used both via `self.target / mountpoint.relative_to("/")`
(joining the absolute mount point under the target) and directly in
strings; with the mount point stored as an absolute path string, both
renderings are string concatenation. -/
def add_limine_bootloader (env : Env) (a : Args) : Result :=
  let ev0 : List Event := [Event.pacmanStrap "limine"]
  let limine_path := a.target ++ "/usr/share/limine"
  if env.has_uefi then
    match a.efi_partition with
    | none => mkFail ev0 (InstallError.valueError "Could not detect efi partition")
    | some efi =>
      match efi.mountpoint with
      | none => mkFail ev0 (InstallError.valueError "EFI partition is not mounted")
      | some mnt =>
        match env.efi_deploy_err with
        | some err =>
          mkFail ev0 (InstallError.diskError
            ("Failed to install Limine in " ++ a.target ++ mnt ++ ": " ++ err))
        | none =>
          let efi_dir_path := a.target ++ mnt ++ "/EFI/BOOT"
          let hook_command :=
            "/usr/bin/cp /usr/share/limine/BOOTIA32.EFI " ++ mnt ++ "/EFI/BOOT/" ++
              " && /usr/bin/cp /usr/share/limine/BOOTX64.EFI " ++ mnt ++ "/EFI/BOOT/"
          finishInstall a
            (ev0 ++
              [Event.mkdirTarget efi_dir_path,
               Event.copyToTarget (limine_path ++ "/BOOTIA32.EFI") efi_dir_path,
               Event.copyToTarget (limine_path ++ "/BOOTX64.EFI") efi_dir_path])
            hook_command
  else
    let parent_dev_path := resolvedParent env a
    match env.bios_deploy_err with
    | some err =>
      mkFail ev0 (InstallError.diskError
        ("Failed to install Limine on " ++ parent_dev_path ++ ": " ++ err))
    | none =>
      let hook_command :=
        "/usr/bin/limine bios-install " ++ parent_dev_path ++
          " && /usr/bin/cp /usr/share/limine/limine-bios.sys /boot/"
      finishInstall a
        (ev0 ++
          [Event.copyToTarget (limine_path ++ "/limine-bios.sys") (a.target ++ "/boot"),
           Event.sysCommand
             ("/usr/bin/arch-chroot " ++ a.target ++ " limine bios-install " ++ parent_dev_path)])
        hook_command

/-! Structured view of the boot-menu configuration -/

/-- One stanza of the boot-menu file, as structured data: the label line
and the four entry lines. -/
structure Stanza where
  label : String
  protocol : String
  kernel_path : String
  module_path : String
  cmdline : String
deriving DecidableEq, Repr

/-- The stanza emitted for one (kernel, variant) pair. -/
def stanzaOf (kernel variant kernel_params : String) : Stanza :=
  ⟨":Polaris Linux " ++ variant,
   "PROTOCOL=linux",
   "KERNEL_PATH=boot:///vmlinuz-" ++ kernel,
   "MODULE_PATH=boot:///initramfs-" ++ kernel ++ variant ++ ".img",
   "CMDLINE=" ++ kernel_params⟩

/-- The stanzas of the boot-menu file, in emission order: for each kernel
in order, the primary variant then the fallback variant. -/
def configStanzas : List String → String → List Stanza
  | [], _ => []
  | k :: ks, kp => stanzaOf k "" kp :: stanzaOf k "fallback" kp :: configStanzas ks kp

/-- Text of one structured stanza, as it appears in the file. -/
def renderStanza (s : Stanza) : String :=
  "\n" ++ s.label ++ "\n    " ++ s.protocol ++ "\n    " ++ s.kernel_path ++
    "\n    " ++ s.module_path ++ "\n    " ++ s.cmdline ++ "\n"

/-- Concatenated text of a list of stanzas. -/
def renderStanzas : List Stanza → String
  | [] => ""
  | s :: rest => renderStanza s ++ renderStanzas rest

/-- Lines of one stanza as appended to the file: a blank line, the label
line, then the four indented entry lines. -/
def stanzaLines (kernel variant kernel_params : String) : List String :=
  "" :: (":Polaris Linux " ++ variant) ::
    (entryLines kernel variant kernel_params).map (fun it => "    " ++ it)

/-- Lines of the loop body of the boot-menu file. -/
def lines_body : List String → String → List String
  | [], _ => []
  | k :: ks, kp => stanzaLines k "" kp ++ (stanzaLines k "fallback" kp ++ lines_body ks kp)

/-- All lines of the boot-menu file, in order. -/
def config_lines (kernels : List String) (kernel_params : String) : List String :=
  "TIMEOUT=5" :: lines_body kernels kernel_params

/-- Text of a line list: each line followed by a newline.  No line the
routine emits contains a newline, so this is inverse to splitting the
file on newlines. -/
def linesToText : List String → String
  | [] => ""
  | l :: ls => l ++ "\n" ++ linesToText ls

/-! Deployment actions and the upgrade hook command -/

/-- A deployment step, in the coordinates of the installed system root:
copy a file into a directory, or run the bios-install subcommand of
limine against a device. -/
inductive DeployAction where
  | cp (src dstDir : String)
  | biosInstall (device : String)
deriving DecidableEq, Repr

/-- Shell rendering of one deployment action, as the upgrade hook wires
it. -/
def renderAction : DeployAction → String
  | DeployAction.cp src dstDir => "/usr/bin/cp " ++ src ++ " " ++ dstDir
  | DeployAction.biosInstall device => "/usr/bin/limine bios-install " ++ device

/-- Shell rendering of a deployment action sequence joined by `&&`. -/
def renderHookCmd (actions : List DeployAction) : String :=
  String.intercalate " && " (actions.map renderAction)

/-- The two stub copies the UEFI-mode upgrade hook performs, relative to
the installed root, given the EFI mount point. -/
def uefiHookActions (mnt : String) : List DeployAction :=
  [DeployAction.cp "/usr/share/limine/BOOTIA32.EFI" (mnt ++ "/EFI/BOOT/"),
   DeployAction.cp "/usr/share/limine/BOOTX64.EFI" (mnt ++ "/EFI/BOOT/")]

/-- The two steps the BIOS-mode upgrade hook performs, relative to the
installed root, given the resolved parent device. -/
def biosHookActions (parent : String) : List DeployAction :=
  [DeployAction.biosInstall parent,
   DeployAction.cp "/usr/share/limine/limine-bios.sys" "/boot/"]

/-- The deployment steps the initial UEFI-mode install performs, relative
to the installed root (the two stub copies into the EFI boot
directory). -/
def uefiInstallActions (mnt : String) : List DeployAction :=
  [DeployAction.cp "/usr/share/limine/BOOTIA32.EFI" (mnt ++ "/EFI/BOOT"),
   DeployAction.cp "/usr/share/limine/BOOTX64.EFI" (mnt ++ "/EFI/BOOT")]

/-- The deployment steps the initial BIOS-mode install performs, relative
to the installed root (stage-3 copy into /boot, then bios-install on the
parent device). -/
def biosInstallActions (parent : String) : List DeployAction :=
  [DeployAction.cp "/usr/share/limine/limine-bios.sys" "/boot",
   DeployAction.biosInstall parent]

/-- How the initial install realizes a root-relative deployment action on
the target: a copy acts on paths under the target; bios-install runs the
limine subcommand through arch-chroot on the target. -/
def toTargetEvent (target : String) : DeployAction → Event
  | DeployAction.cp src dstDir => Event.copyToTarget (target ++ src) (target ++ dstDir)
  | DeployAction.biosInstall device =>
      Event.sysCommand ("/usr/bin/arch-chroot " ++ target ++ " limine bios-install " ++ device)

/-- Events that deploy boot files (file copies and subprocess
invocations), as opposed to package strap, directory creation, config
writes and flag updates. -/
def isDeployStep : Event → Bool
  | Event.copyToTarget _ _ => true
  | Event.sysCommand _ => true
  | _ => false

/-- Events that mutate the target filesystem (or, for a subprocess, the
machine the target lives on): everything but the helper-flag update. -/
def mutatesTargetFs : Event → Bool
  | Event.setHelperFlag _ _ => false
  | _ => true

/-- Last path component of a slash-separated path: the characters after
the final slash. -/
def basename (path : String) : String :=
  ⟨(path.data.reverse.takeWhile (fun c => c ≠ '/')).reverse⟩

/-- Destination path of copying a file into a directory: the directory
(with a separating slash when it lacks a trailing one) followed by the
file basename, as `cp SRC DIR` and `shutil.copy(src, dir)` both
behave. -/
def joinPath (dir file : String) : String :=
  if dir.data.getLast? = some '/' then dir ++ file else dir ++ "/" ++ file

/-- The files a deployment action sequence places, as full paths relative
to the installed root. -/
def placedFiles (actions : List DeployAction) : List String :=
  actions.filterMap (fun act =>
    match act with
    | DeployAction.cp src dstDir => some (joinPath dstDir (basename src))
    | DeployAction.biosInstall _ => none)

/-- The devices a deployment action sequence runs bios-install
against. -/
def biosDevices (actions : List DeployAction) : List String :=
  actions.filterMap (fun act =>
    match act with
    | DeployAction.cp _ _ => none
    | DeployAction.biosInstall device => some device)

/-- Whether `pat` occurs as a contiguous substring of `s`. -/
def containsSub (s pat : String) : Bool :=
  (List.range (s.data.length + 1)).any
    (fun i => (s.data.drop i).take pat.data.length == pat.data)

/-! Bridging lemmas between the rendered text and the structured views -/

theorem data_append (s t : String) : (s ++ t).data = s.data ++ t.data := rfl

theorem intercalate_four (sep a b c d : String) :
    String.intercalate sep [a, b, c, d] = a ++ sep ++ b ++ sep ++ c ++ sep ++ d := rfl

theorem stanzaText_eq (k v kp : String) :
    stanzaText k v kp = renderStanza (stanzaOf k v kp) := by
  apply String.ext
  simp [stanzaText, renderStanza, stanzaOf, entryLines, intercalate_four, data_append]

theorem config_body_eq (ks : List String) (kp : String) :
    config_body ks kp = renderStanzas (configStanzas ks kp) := by
  induction ks with
  | nil => rfl
  | cons k rest ih =>
      simp [config_body, configStanzas, renderStanzas, ih, stanzaText_eq, String.append_assoc]

theorem config_contents_eq (ks : List String) (kp : String) :
    config_contents ks kp = "TIMEOUT=5\n" ++ renderStanzas (configStanzas ks kp) := by
  rw [config_contents, config_body_eq]

theorem stanzaText_lines (k v kp : String) :
    stanzaText k v kp = linesToText (stanzaLines k v kp) := by
  apply String.ext
  simp [stanzaText, stanzaLines, entryLines, linesToText, intercalate_four, data_append]

theorem linesToText_append (l1 l2 : List String) :
    linesToText (l1 ++ l2) = linesToText l1 ++ linesToText l2 := by
  induction l1 with
  | nil => simp [linesToText]
  | cons a as ih => simp [linesToText, ih, String.append_assoc]

theorem config_contents_lines (ks : List String) (kp : String) :
    config_contents ks kp = linesToText (config_lines ks kp) := by
  rw [config_contents, config_lines, linesToText]
  have body : ∀ ks0 : List String, config_body ks0 kp = linesToText (lines_body ks0 kp) := by
    intro ks0
    induction ks0 with
    | nil => rfl
    | cons k rest ih =>
        simp [config_body, lines_body, linesToText_append, ih, stanzaText_lines]
  rw [body]
  apply String.ext
  simp [data_append]

theorem append_ne_timeout (s t : String) (h : 9 < s.length + t.length) :
    s ++ t ≠ "TIMEOUT=5" := by
  intro heq
  have h9 := congrArg String.length heq
  rw [String.length_append] at h9
  rw [show ("TIMEOUT=5" : String).length = 9 from rfl] at h9
  omega

theorem stanzaLines_ne_timeout (k v kp : String) :
    ∀ l ∈ stanzaLines k v kp, l ≠ "TIMEOUT=5" := by
  intro l hl
  simp [stanzaLines, entryLines] at hl
  rcases hl with h | h | h | h | h | h
  · rw [h]; decide
  · rw [h]
    exact append_ne_timeout _ _ (by rw [show (":Polaris Linux " : String).length = 15 from rfl]; omega)
  · rw [h]; decide
  · rw [h]
    exact append_ne_timeout _ _
      (by rw [show ("    " : String).length = 4 from rfl, String.length_append,
              show ("KERNEL_PATH=boot:///vmlinuz-" : String).length = 28 from rfl]; omega)
  · rw [h]
    exact append_ne_timeout _ _
      (by rw [show ("    " : String).length = 4 from rfl, String.length_append,
              show ("MODULE_PATH=boot:///initramfs-" ++ k ++ v : String).length =
                30 + k.length + v.length from by
                  rw [String.length_append, String.length_append,
                      show ("MODULE_PATH=boot:///initramfs-" : String).length = 30 from rfl]]
          omega)
  · rw [h]
    exact append_ne_timeout _ _
      (by rw [show ("    " : String).length = 4 from rfl, String.length_append,
              show ("CMDLINE=" : String).length = 8 from rfl]; omega)

theorem lines_body_ne_timeout (ks : List String) (kp : String) :
    ∀ l ∈ lines_body ks kp, l ≠ "TIMEOUT=5" := by
  intro l hl
  induction ks with
  | nil => simp [lines_body] at hl
  | cons k rest ih =>
      simp [lines_body] at hl
      rcases hl with h | h | h
      · exact stanzaLines_ne_timeout k "" kp l h
      · exact stanzaLines_ne_timeout k "fallback" kp l h
      · exact ih (by simpa [lines_body] using h)

/-! Run-shape lemmas: the result of each branch of the routine -/

theorem run_fail_no_efi (env : Env) (a : Args)
    (h1 : env.has_uefi = true) (h2 : a.efi_partition = none) :
    add_limine_bootloader env a =
      mkFail [Event.pacmanStrap "limine"]
        (InstallError.valueError "Could not detect efi partition") := by
  simp [add_limine_bootloader, h1, h2]

theorem run_fail_unmounted (env : Env) (a : Args) (efi : PartitionModification)
    (h1 : env.has_uefi = true) (h2 : a.efi_partition = some efi)
    (h3 : efi.mountpoint = none) :
    add_limine_bootloader env a =
      mkFail [Event.pacmanStrap "limine"]
        (InstallError.valueError "EFI partition is not mounted") := by
  simp [add_limine_bootloader, h1, h2, h3]

theorem run_fail_efi_deploy (env : Env) (a : Args) (efi : PartitionModification)
    (mnt err : String)
    (h1 : env.has_uefi = true) (h2 : a.efi_partition = some efi)
    (h3 : efi.mountpoint = some mnt) (h4 : env.efi_deploy_err = some err) :
    add_limine_bootloader env a =
      mkFail [Event.pacmanStrap "limine"]
        (InstallError.diskError
          ("Failed to install Limine in " ++ a.target ++ mnt ++ ": " ++ err)) := by
  simp [add_limine_bootloader, h1, h2, h3, h4]

theorem run_uefi (env : Env) (a : Args) (efi : PartitionModification) (mnt : String)
    (h1 : env.has_uefi = true) (h2 : a.efi_partition = some efi)
    (h3 : efi.mountpoint = some mnt) (h4 : env.efi_deploy_err = none) :
    add_limine_bootloader env a =
      ⟨[Event.pacmanStrap "limine",
        Event.mkdirTarget (a.target ++ mnt ++ "/EFI/BOOT"),
        Event.copyToTarget (a.target ++ "/usr/share/limine" ++ "/BOOTIA32.EFI")
          (a.target ++ mnt ++ "/EFI/BOOT"),
        Event.copyToTarget (a.target ++ "/usr/share/limine" ++ "/BOOTX64.EFI")
          (a.target ++ mnt ++ "/EFI/BOOT"),
        Event.mkdirTarget (a.target ++ "/etc/pacman.d/hooks"),
        Event.writeFile (a.target ++ "/etc/pacman.d/hooks/99-limine.hook")
          (hook_contents
            ("/usr/bin/cp /usr/share/limine/BOOTIA32.EFI " ++ mnt ++ "/EFI/BOOT/" ++
              " && /usr/bin/cp /usr/share/limine/BOOTX64.EFI " ++ mnt ++ "/EFI/BOOT/")),
        Event.writeFile (a.target ++ "/boot/limine.cfg")
          (config_contents a.kernels (kernel_params_str a.root_kernel_params)),
        Event.setHelperFlag "bootloader" "limine"],
       none, some "limine"⟩ := by
  simp [add_limine_bootloader, h1, h2, h3, h4, finishInstall]

theorem run_fail_bios_deploy (env : Env) (a : Args) (err : String)
    (h1 : env.has_uefi = false) (h4 : env.bios_deploy_err = some err) :
    add_limine_bootloader env a =
      mkFail [Event.pacmanStrap "limine"]
        (InstallError.diskError
          ("Failed to install Limine on " ++ resolvedParent env a ++ ": " ++ err)) := by
  simp [add_limine_bootloader, h1, h4]

theorem run_bios (env : Env) (a : Args)
    (h1 : env.has_uefi = false) (h4 : env.bios_deploy_err = none) :
    add_limine_bootloader env a =
      ⟨[Event.pacmanStrap "limine",
        Event.copyToTarget (a.target ++ "/usr/share/limine" ++ "/limine-bios.sys")
          (a.target ++ "/boot"),
        Event.sysCommand
          ("/usr/bin/arch-chroot " ++ a.target ++ " limine bios-install " ++
            resolvedParent env a),
        Event.mkdirTarget (a.target ++ "/etc/pacman.d/hooks"),
        Event.writeFile (a.target ++ "/etc/pacman.d/hooks/99-limine.hook")
          (hook_contents
            ("/usr/bin/limine bios-install " ++ resolvedParent env a ++
              " && /usr/bin/cp /usr/share/limine/limine-bios.sys /boot/")),
        Event.writeFile (a.target ++ "/boot/limine.cfg")
          (config_contents a.kernels (kernel_params_str a.root_kernel_params)),
        Event.setHelperFlag "bootloader" "limine"],
       none, some "limine"⟩ := by
  simp [add_limine_bootloader, h1, h4, finishInstall]

/-! Hook-command rendering and placement lemmas -/

theorem intercalate_pair (sep a b : String) :
    String.intercalate sep [a, b] = a ++ sep ++ b := rfl

theorem renderHookCmd_uefi (mnt : String) :
    renderHookCmd (uefiHookActions mnt) =
      "/usr/bin/cp /usr/share/limine/BOOTIA32.EFI " ++ mnt ++ "/EFI/BOOT/" ++
        " && /usr/bin/cp /usr/share/limine/BOOTX64.EFI " ++ mnt ++ "/EFI/BOOT/" := by
  apply String.ext
  simp [renderHookCmd, uefiHookActions, renderAction, intercalate_pair, data_append]

theorem renderHookCmd_bios (parent : String) :
    renderHookCmd (biosHookActions parent) =
      "/usr/bin/limine bios-install " ++ parent ++
        " && /usr/bin/cp /usr/share/limine/limine-bios.sys /boot/" := by
  apply String.ext
  simp [renderHookCmd, biosHookActions, renderAction, intercalate_pair, data_append]

theorem getLast_append_right (s t : String) (c : Char) (h : t.data.getLast? = some c) :
    (s ++ t).data.getLast? = some c := by
  rw [data_append, List.getLast?_append, h]
  rfl

theorem uefi_placed (mnt : String) :
    placedFiles (uefiHookActions mnt) = placedFiles (uefiInstallActions mnt) := by
  have h1 : (mnt ++ "/EFI/BOOT/").data.getLast? = some '/' :=
    getLast_append_right _ _ _ rfl
  have h2 : (mnt ++ "/EFI/BOOT").data.getLast? = some 'T' :=
    getLast_append_right _ _ _ rfl
  have b1 : basename "/usr/share/limine/BOOTIA32.EFI" = "BOOTIA32.EFI" := rfl
  have b2 : basename "/usr/share/limine/BOOTX64.EFI" = "BOOTX64.EFI" := rfl
  simp [placedFiles, uefiHookActions, uefiInstallActions, joinPath, h1, h2, b1, b2]
  constructor <;> (apply String.ext; simp [data_append])

theorem uefi_devices (mnt : String) :
    biosDevices (uefiHookActions mnt) = biosDevices (uefiInstallActions mnt) := rfl

theorem bios_placed (parent : String) :
    placedFiles (biosHookActions parent) = placedFiles (biosInstallActions parent) := by
  simp [placedFiles, biosHookActions, biosInstallActions]
  decide

theorem bios_devices (parent : String) :
    biosDevices (biosHookActions parent) = biosDevices (biosInstallActions parent) := rfl

theorem target_join_ia32 (t : String) :
    t ++ "/usr/share/limine" ++ "/BOOTIA32.EFI" = t ++ "/usr/share/limine/BOOTIA32.EFI" := by
  apply String.ext
  simp [data_append]

theorem target_join_x64 (t : String) :
    t ++ "/usr/share/limine" ++ "/BOOTX64.EFI" = t ++ "/usr/share/limine/BOOTX64.EFI" := by
  apply String.ext
  simp [data_append]

theorem target_join_stage3 (t : String) :
    t ++ "/usr/share/limine" ++ "/limine-bios.sys" = t ++ "/usr/share/limine/limine-bios.sys" := by
  apply String.ext
  simp [data_append]

theorem target_join_efidir (t mnt : String) :
    t ++ mnt ++ "/EFI/BOOT" = t ++ (mnt ++ "/EFI/BOOT") := by
  apply String.ext
  simp [data_append]

/-! Concrete fixtures for witnesses and counterexamples -/

/-- Events that are invocations of `SysCommand`. -/
def isSysCommandEvent : Event → Bool
  | Event.sysCommand _ => true
  | _ => false

/-- A UEFI environment whose run finds no EFI partition. -/
def envUefi : Env :=
  ⟨true, fun _ => "/dev/sda", fun _ => none, none, none⟩

/-- Arguments with no EFI partition supplied. -/
def argsNoEfi : Args :=
  ⟨⟨"/dev/sda1", "/dev/sda1", some "/boot"⟩, none,
   ["root=UUID=1234-ABCD", "rw"], ["linux-zen"], "/mnt/archinstall"⟩

/-- Arguments with an EFI partition that has no mount point. -/
def argsUnmounted : Args :=
  ⟨⟨"/dev/sda2", "/dev/sda2", some "/boot"⟩,
   some ⟨"/dev/sda1", "/dev/sda1", none⟩,
   ["root=UUID=1234-ABCD", "rw"], ["linux-zen"], "/mnt/archinstall"⟩

/-- Arguments with a mounted EFI partition. -/
def argsMounted : Args :=
  ⟨⟨"/dev/sda2", "/dev/sda2", some "/boot"⟩,
   some ⟨"/dev/sda1", "/dev/sda1", some "/boot/efi"⟩,
   ["root=UUID=1234-ABCD", "rw"], ["linux-zen"], "/mnt/archinstall"⟩

/-- A BIOS environment in which a unique alias path exists for the parent
device. -/
def envBios : Env :=
  ⟨false, fun _ => "/dev/sda", fun _ => some "/dev/disk/by-id/ata-DISK0", none, none⟩

/-! Claims -/

/-- Claim C1, counterexample: in UEFI mode with no EFI partition the
operation does fail, but a filesystem mutation of the target has already
been performed before the failure: the strap of the limine package into
the target root (line 30 of the source precedes the check at line 37).
So, as stated, the claim that installation fails before any filesystem
mutation of the target is false. -/
theorem c1_strap_precedes_check :
    (add_limine_bootloader envUefi argsNoEfi).outcome.isSome = true ∧
    (add_limine_bootloader envUefi argsNoEfi).events.any mutatesTargetFs = true ∧
    Event.pacmanStrap "limine" ∈ (add_limine_bootloader envUefi argsNoEfi).events := by
  refine ⟨rfl, rfl, ?_⟩
  simp [add_limine_bootloader, envUefi, argsNoEfi, mkFail]

/-- Claim C1 (amended): if, in UEFI mode, the EFI partition is absent or
has no mount point, the operation raises one of the two precondition
`ValueError`s and its trace holds only the strap of the limine package
into the target; no directory is created, no file is copied, no hook file
and no boot-menu config file is written, and the bootloader flag is not
recorded. -/
theorem c1_precondition_fails_before_writes (env : Env) (a : Args)
    (h1 : env.has_uefi = true)
    (h2 : a.efi_partition = none ∨
      ∃ efi, a.efi_partition = some efi ∧ efi.mountpoint = none) :
    (add_limine_bootloader env a).outcome.isSome = true ∧
    (add_limine_bootloader env a).events = [Event.pacmanStrap "limine"] ∧
    (∀ e ∈ (add_limine_bootloader env a).events, isDeployStep e = false) ∧
    (∀ p c, Event.writeFile p c ∉ (add_limine_bootloader env a).events) ∧
    (∀ p, Event.mkdirTarget p ∉ (add_limine_bootloader env a).events) ∧
    (add_limine_bootloader env a).bootloader_flag = none := by
  rcases h2 with h2 | ⟨efi, h2, h3⟩
  · rw [run_fail_no_efi env a h1 h2]
    simp [mkFail, isDeployStep]
  · rw [run_fail_unmounted env a efi h1 h2 h3]
    simp [mkFail, isDeployStep]

/-- Claim C1, witness of the amended theorem at a concrete input. -/
theorem c1_witness :
    envUefi.has_uefi = true ∧
    argsNoEfi.efi_partition = none ∧
    (add_limine_bootloader envUefi argsNoEfi).events = [Event.pacmanStrap "limine"] := by
  refine ⟨rfl, rfl, ?_⟩
  exact (c1_precondition_fails_before_writes envUefi argsNoEfi rfl (Or.inl rfl)).2.1

/-- Claim C4, counterexample: the missing-EFI-partition precondition
failure is raised as a `ValueError`, not as the disk-error kind, and its
message holds no path or device; so not every failure raised by the
operation is of the single disk/boot-deployment error kind. -/
theorem c4_precondition_not_disk_error :
    (add_limine_bootloader envUefi argsNoEfi).outcome =
      some (InstallError.valueError "Could not detect efi partition") ∧
    InstallError.isDiskError (InstallError.valueError "Could not detect efi partition") = false ∧
    (add_limine_bootloader envUefi argsUnmounted).outcome =
      some (InstallError.valueError "EFI partition is not mounted") ∧
    InstallError.isDiskError (InstallError.valueError "EFI partition is not mounted") = false :=
  ⟨rfl, rfl, rfl, rfl⟩

/-- Claim C4 (amended): every failure raised by the operation is either
one of the two precondition `ValueError`s (fixed messages, no embedded
path) or a disk-error whose message embeds the failing path (UEFI: the
target joined with the EFI mount point) or device (BIOS: the resolved
parent device) together with the underlying cause. -/
theorem c4_error_taxonomy (env : Env) (a : Args) (e : InstallError)
    (h : (add_limine_bootloader env a).outcome = some e) :
    e = InstallError.valueError "Could not detect efi partition" ∨
    e = InstallError.valueError "EFI partition is not mounted" ∨
    (∃ efi mnt err, a.efi_partition = some efi ∧ efi.mountpoint = some mnt ∧
      env.efi_deploy_err = some err ∧
      e = InstallError.diskError
        ("Failed to install Limine in " ++ a.target ++ mnt ++ ": " ++ err)) ∨
    (∃ err, env.bios_deploy_err = some err ∧
      e = InstallError.diskError
        ("Failed to install Limine on " ++ resolvedParent env a ++ ": " ++ err)) := by
  cases h1 : env.has_uefi with
  | true =>
      cases h2 : a.efi_partition with
      | none =>
          rw [run_fail_no_efi env a h1 h2] at h
          simp [mkFail] at h
          exact Or.inl h.symm
      | some efi =>
          cases h3 : efi.mountpoint with
          | none =>
              rw [run_fail_unmounted env a efi h1 h2 h3] at h
              simp [mkFail] at h
              exact Or.inr (Or.inl h.symm)
          | some mnt =>
              cases h4 : env.efi_deploy_err with
              | none =>
                  rw [run_uefi env a efi mnt h1 h2 h3 h4] at h
                  simp at h
              | some err =>
                  rw [run_fail_efi_deploy env a efi mnt err h1 h2 h3 h4] at h
                  simp [mkFail] at h
                  exact Or.inr (Or.inr (Or.inl ⟨efi, mnt, err, rfl, h3, rfl, h.symm⟩))
  | false =>
      cases h4 : env.bios_deploy_err with
      | none =>
          rw [run_bios env a h1 h4] at h
          simp at h
      | some err =>
          rw [run_fail_bios_deploy env a err h1 h4] at h
          simp [mkFail] at h
          exact Or.inr (Or.inr (Or.inr ⟨err, rfl, h.symm⟩))

/-- Claim C4, witness of the amended theorem at a concrete input. -/
theorem c4_witness :
    (add_limine_bootloader envUefi argsNoEfi).outcome =
      some (InstallError.valueError "Could not detect efi partition") ∧
    (InstallError.valueError "Could not detect efi partition" =
        InstallError.valueError "Could not detect efi partition" ∨
      InstallError.valueError "Could not detect efi partition" =
        InstallError.valueError "EFI partition is not mounted" ∨
      (∃ efi mnt err, argsNoEfi.efi_partition = some efi ∧ efi.mountpoint = some mnt ∧
        envUefi.efi_deploy_err = some err ∧
        InstallError.valueError "Could not detect efi partition" =
          InstallError.diskError
            ("Failed to install Limine in " ++ argsNoEfi.target ++ mnt ++ ": " ++ err)) ∨
      (∃ err, envUefi.bios_deploy_err = some err ∧
        InstallError.valueError "Could not detect efi partition" =
          InstallError.diskError
            ("Failed to install Limine on " ++ resolvedParent envUefi argsNoEfi ++ ": " ++ err))) :=
  ⟨rfl, c4_error_taxonomy envUefi argsNoEfi _ rfl⟩

theorem data_empty : ("" : String).data = [] := rfl

/-- Example joined kernel parameter string used in concrete inputs. -/
def kpEx : String := kernel_params_str ["root=UUID=1234-ABCD", "rw"]

/-- Shared lemma: every stanza of the boot-menu file carries the label of
its variant. -/
theorem label_of_mem (ks : List String) (kp : String) :
    ∀ s ∈ configStanzas ks kp,
      s.label = ":Polaris Linux " ∨ s.label = ":Polaris Linux fallback" := by
  induction ks with
  | nil => simp [configStanzas]
  | cons k rest ih =>
      intro s hs
      simp [configStanzas] at hs
      rcases hs with h | h | h
      · subst h; left; rfl
      · subst h; right; rfl
      · exact ih s h

/-- Shared lemma: every stanza of the boot-menu file carries the same
command line, derived from the joined kernel parameter string alone. -/
theorem cmdline_of_mem (ks : List String) (kp : String) :
    ∀ s ∈ configStanzas ks kp, s.cmdline = "CMDLINE=" ++ kp := by
  induction ks with
  | nil => simp [configStanzas]
  | cons k rest ih =>
      intro s hs
      simp [configStanzas] at hs
      rcases hs with h | h | h
      · subst h; rfl
      · subst h; rfl
      · exact ih s h

/-- Claim C2, counterexample: for kernels `["linux-zen"]` the two stanzas
are not identical apart from the module-path line: the label line also
differs (primary `:Polaris Linux `, fallback `:Polaris Linux fallback`),
so replacing the module path of the primary stanza by the fallback one
does not yield the fallback stanza. -/
theorem c2_stanzas_differ_in_label :
    (stanzaOf "linux-zen" "" kpEx).label ≠ (stanzaOf "linux-zen" "fallback" kpEx).label ∧
    { stanzaOf "linux-zen" "" kpEx with
        module_path := (stanzaOf "linux-zen" "fallback" kpEx).module_path } ≠
      stanzaOf "linux-zen" "fallback" kpEx ∧
    configStanzas ["linux-zen"] kpEx =
      [stanzaOf "linux-zen" "" kpEx, stanzaOf "linux-zen" "fallback" kpEx] := by
  refine ⟨by decide, by decide, rfl⟩

/-- Claim C2 (amended): for kernels `["linux-zen"]` the boot-menu file
holds exactly two stanzas, primary then fallback, both with kernel path
`vmlinuz-linux-zen`, with module paths `initramfs-linux-zen.img` and
`initramfs-linux-zenfallback.img` respectively, and the two stanzas are
identical apart from the module-path line and the variant suffix of the
label line. -/
theorem c2_single_kernel_stanzas (kp : String) :
    configStanzas ["linux-zen"] kp =
      [stanzaOf "linux-zen" "" kp, stanzaOf "linux-zen" "fallback" kp] ∧
    (configStanzas ["linux-zen"] kp).length = 2 ∧
    (stanzaOf "linux-zen" "" kp).kernel_path = "KERNEL_PATH=boot:///vmlinuz-linux-zen" ∧
    (stanzaOf "linux-zen" "fallback" kp).kernel_path = "KERNEL_PATH=boot:///vmlinuz-linux-zen" ∧
    (stanzaOf "linux-zen" "" kp).module_path = "MODULE_PATH=boot:///initramfs-linux-zen.img" ∧
    (stanzaOf "linux-zen" "fallback" kp).module_path =
      "MODULE_PATH=boot:///initramfs-linux-zenfallback.img" ∧
    stanzaOf "linux-zen" "fallback" kp =
      { stanzaOf "linux-zen" "" kp with
          label := ":Polaris Linux fallback",
          module_path := "MODULE_PATH=boot:///initramfs-linux-zenfallback.img" } ∧
    config_contents ["linux-zen"] kp =
      "TIMEOUT=5\n" ++ renderStanza (stanzaOf "linux-zen" "" kp) ++
        renderStanza (stanzaOf "linux-zen" "fallback" kp) := by
  refine ⟨rfl, rfl, rfl, rfl, rfl, rfl, rfl, ?_⟩
  rw [config_contents_eq]
  simp [configStanzas, renderStanzas]
  apply String.ext
  simp [data_append, data_empty]

/-- Claim C6: for two distinct kernels the boot-menu file holds exactly
four stanzas, grouped by kernel in the order supplied, primary before
fallback within each kernel. -/
theorem c6_two_kernel_stanzas (k1 k2 kp : String) (_h : k1 ≠ k2) :
    configStanzas [k1, k2] kp =
      [stanzaOf k1 "" kp, stanzaOf k1 "fallback" kp,
       stanzaOf k2 "" kp, stanzaOf k2 "fallback" kp] ∧
    (configStanzas [k1, k2] kp).length = 4 ∧
    config_contents [k1, k2] kp =
      "TIMEOUT=5\n" ++ renderStanza (stanzaOf k1 "" kp) ++
        renderStanza (stanzaOf k1 "fallback" kp) ++
        renderStanza (stanzaOf k2 "" kp) ++
        renderStanza (stanzaOf k2 "fallback" kp) := by
  refine ⟨rfl, rfl, ?_⟩
  rw [config_contents_eq]
  simp [configStanzas, renderStanzas]
  apply String.ext
  simp [data_append, data_empty]

/-- Claim C6, witness at two concrete distinct kernels. -/
theorem c6_witness :
    "linux-zen" ≠ "linux-lts" ∧
    configStanzas ["linux-zen", "linux-lts"] kpEx =
      [stanzaOf "linux-zen" "" kpEx, stanzaOf "linux-zen" "fallback" kpEx,
       stanzaOf "linux-lts" "" kpEx, stanzaOf "linux-lts" "fallback" kpEx] :=
  ⟨by decide, (c6_two_kernel_stanzas "linux-zen" "linux-lts" kpEx (by decide)).1⟩

/-- Claim C7: for every kernel list the boot-menu file holds the line
`TIMEOUT=5` exactly once, as its first line (hence before every stanza),
and the file text is exactly its line list joined with newlines. -/
theorem c7_timeout_line (ks : List String) (kp : String) :
    (config_lines ks kp).count "TIMEOUT=5" = 1 ∧
    (config_lines ks kp).head? = some "TIMEOUT=5" ∧
    (∀ l ∈ lines_body ks kp, l ≠ "TIMEOUT=5") ∧
    config_contents ks kp = linesToText (config_lines ks kp) := by
  refine ⟨?_, rfl, lines_body_ne_timeout ks kp, config_contents_lines ks kp⟩
  rw [config_lines]
  rw [List.count_cons]
  rw [List.count_eq_zero.mpr]
  · simp
  · intro hmem
    exact lines_body_ne_timeout ks kp _ hmem rfl

/-- Claim C9, counterexample: the label line of a stanza can contain the
kernel identifier: for the kernel list `["Linux"]` the primary stanza is
labelled `:Polaris Linux `, which contains the kernel identifier `Linux`
as a substring. -/
theorem c9_label_contains_kernel :
    stanzaOf "Linux" "" kpEx ∈ configStanzas ["Linux"] kpEx ∧
    containsSub (stanzaOf "Linux" "" kpEx).label "Linux" = true := by
  refine ⟨by simp [configStanzas], by decide⟩

/-- Claim C9 (amended): the label line of every stanza is
`:Polaris Linux ` followed only by the variant suffix, independent of the
kernel identifier; hence all primary stanzas share one label and all
fallback stanzas share another, and stanzas of distinct kernels carry
identical labels. -/
theorem c9_labels_variant_only (ks : List String) (kp : String) :
    (∀ s ∈ configStanzas ks kp,
      s.label = ":Polaris Linux " ∨ s.label = ":Polaris Linux fallback") ∧
    (∀ k1 k2 v kp2, (stanzaOf k1 v kp).label = (stanzaOf k2 v kp2).label) :=
  ⟨label_of_mem ks kp, fun _ _ _ _ => rfl⟩

/-- Claim C10: on every successful run, the boot-menu file written into
`boot/limine.cfg` has every stanza carrying the identical command line:
the root-derived kernel parameters with `quiet` then `splash` appended,
independent of kernel and variant. -/
theorem c10_cmdline_uniform (env : Env) (a : Args)
    (h : (add_limine_bootloader env a).outcome = none) :
    Event.writeFile (a.target ++ "/boot/limine.cfg")
        (config_contents a.kernels (kernel_params_str a.root_kernel_params)) ∈
      (add_limine_bootloader env a).events ∧
    (∀ s ∈ configStanzas a.kernels (kernel_params_str a.root_kernel_params),
      s.cmdline =
        "CMDLINE=" ++ String.intercalate " " (a.root_kernel_params ++ ["quiet", "splash"])) ∧
    (∀ s1 ∈ configStanzas a.kernels (kernel_params_str a.root_kernel_params),
      ∀ s2 ∈ configStanzas a.kernels (kernel_params_str a.root_kernel_params),
        s1.cmdline = s2.cmdline) := by
  refine ⟨?_, ?_, ?_⟩
  · cases h1 : env.has_uefi with
    | true =>
        cases h2 : a.efi_partition with
        | none => rw [run_fail_no_efi env a h1 h2] at h; simp [mkFail] at h
        | some efi =>
            cases h3 : efi.mountpoint with
            | none => rw [run_fail_unmounted env a efi h1 h2 h3] at h; simp [mkFail] at h
            | some mnt =>
                cases h4 : env.efi_deploy_err with
                | none => rw [run_uefi env a efi mnt h1 h2 h3 h4]; simp
                | some err =>
                    rw [run_fail_efi_deploy env a efi mnt err h1 h2 h3 h4] at h
                    simp [mkFail] at h
    | false =>
        cases h4 : env.bios_deploy_err with
        | none => rw [run_bios env a h1 h4]; simp
        | some err => rw [run_fail_bios_deploy env a err h1 h4] at h; simp [mkFail] at h
  · exact cmdline_of_mem a.kernels (kernel_params_str a.root_kernel_params)
  · intro s1 h1 s2 h2
    rw [cmdline_of_mem _ _ s1 h1, cmdline_of_mem _ _ s2 h2]

/-- Claim C10, witness at a concrete successful BIOS run. -/
theorem c10_witness :
    (add_limine_bootloader envBios argsNoEfi).outcome = none ∧
    Event.writeFile (argsNoEfi.target ++ "/boot/limine.cfg")
        (config_contents argsNoEfi.kernels (kernel_params_str argsNoEfi.root_kernel_params)) ∈
      (add_limine_bootloader envBios argsNoEfi).events :=
  ⟨rfl, (c10_cmdline_uniform envBios argsNoEfi rfl).1⟩

/-- Claim C5: in BIOS mode, on a run whose deployment block does not
fail, the routine resolves the parent whole-disk device of the boot
partition, replaces it by the unique alias path when one is available,
copies limine-bios.sys into the target /boot directory, and invokes the
bios-install subcommand exactly once against the resolved parent
device. -/
theorem c5_bios_deployment (env : Env) (a : Args)
    (h1 : env.has_uefi = false) (h4 : env.bios_deploy_err = none) :
    (add_limine_bootloader env a).outcome = none ∧
    (add_limine_bootloader env a).events.filter isSysCommandEvent =
      [Event.sysCommand
        ("/usr/bin/arch-chroot " ++ a.target ++ " limine bios-install " ++
          resolvedParent env a)] ∧
    Event.copyToTarget (a.target ++ "/usr/share/limine" ++ "/limine-bios.sys")
        (a.target ++ "/boot") ∈ (add_limine_bootloader env a).events ∧
    (∀ u, env.get_unique_path_for_device
        (env.get_parent_device_path a.boot_partition.safe_dev_path) = some u →
      resolvedParent env a = u) ∧
    (env.get_unique_path_for_device
        (env.get_parent_device_path a.boot_partition.safe_dev_path) = none →
      resolvedParent env a = env.get_parent_device_path a.boot_partition.safe_dev_path) := by
  rw [run_bios env a h1 h4]
  refine ⟨rfl, ?_, by simp, ?_, ?_⟩
  · simp [isSysCommandEvent]
  · intro u hu
    simp [resolvedParent, hu]
  · intro hu
    simp [resolvedParent, hu]

/-- Claim C5, witness at a concrete BIOS environment with an alias
path. -/
theorem c5_witness :
    envBios.has_uefi = false ∧
    envBios.bios_deploy_err = none ∧
    (add_limine_bootloader envBios argsNoEfi).events.filter isSysCommandEvent =
      [Event.sysCommand
        ("/usr/bin/arch-chroot " ++ argsNoEfi.target ++ " limine bios-install " ++
          resolvedParent envBios argsNoEfi)] :=
  ⟨rfl, rfl, (c5_bios_deployment envBios argsNoEfi rfl rfl).2.1⟩

/-- Claim C8: on every successful run the bootloader entry of
`helper_flags` equals "limine", and the assignment is the last event of
the trace, coming after the write of the boot-menu configuration (which
is the event just before it). -/
theorem c8_flag_after_config (env : Env) (a : Args)
    (h : (add_limine_bootloader env a).outcome = none) :
    (add_limine_bootloader env a).bootloader_flag = some "limine" ∧
    ∃ pre, (add_limine_bootloader env a).events = pre ++
      [Event.writeFile (a.target ++ "/boot/limine.cfg")
        (config_contents a.kernels (kernel_params_str a.root_kernel_params)),
       Event.setHelperFlag "bootloader" "limine"] := by
  cases h1 : env.has_uefi with
  | true =>
      cases h2 : a.efi_partition with
      | none => rw [run_fail_no_efi env a h1 h2] at h; simp [mkFail] at h
      | some efi =>
          cases h3 : efi.mountpoint with
          | none => rw [run_fail_unmounted env a efi h1 h2 h3] at h; simp [mkFail] at h
          | some mnt =>
              cases h4 : env.efi_deploy_err with
              | none =>
                  rw [run_uefi env a efi mnt h1 h2 h3 h4]
                  exact ⟨rfl,
                    [Event.pacmanStrap "limine",
                     Event.mkdirTarget (a.target ++ mnt ++ "/EFI/BOOT"),
                     Event.copyToTarget (a.target ++ "/usr/share/limine" ++ "/BOOTIA32.EFI")
                       (a.target ++ mnt ++ "/EFI/BOOT"),
                     Event.copyToTarget (a.target ++ "/usr/share/limine" ++ "/BOOTX64.EFI")
                       (a.target ++ mnt ++ "/EFI/BOOT"),
                     Event.mkdirTarget (a.target ++ "/etc/pacman.d/hooks"),
                     Event.writeFile (a.target ++ "/etc/pacman.d/hooks/99-limine.hook")
                       (hook_contents
                         ("/usr/bin/cp /usr/share/limine/BOOTIA32.EFI " ++ mnt ++
                           "/EFI/BOOT/" ++
                           " && /usr/bin/cp /usr/share/limine/BOOTX64.EFI " ++ mnt ++
                           "/EFI/BOOT/"))], rfl⟩
              | some err =>
                  rw [run_fail_efi_deploy env a efi mnt err h1 h2 h3 h4] at h
                  simp [mkFail] at h
  | false =>
      cases h4 : env.bios_deploy_err with
      | none =>
          rw [run_bios env a h1 h4]
          exact ⟨rfl,
            [Event.pacmanStrap "limine",
             Event.copyToTarget (a.target ++ "/usr/share/limine" ++ "/limine-bios.sys")
               (a.target ++ "/boot"),
             Event.sysCommand
               ("/usr/bin/arch-chroot " ++ a.target ++ " limine bios-install " ++
                 resolvedParent env a),
             Event.mkdirTarget (a.target ++ "/etc/pacman.d/hooks"),
             Event.writeFile (a.target ++ "/etc/pacman.d/hooks/99-limine.hook")
               (hook_contents
                 ("/usr/bin/limine bios-install " ++ resolvedParent env a ++
                   " && /usr/bin/cp /usr/share/limine/limine-bios.sys /boot/"))], rfl⟩
      | some err =>
          rw [run_fail_bios_deploy env a err h1 h4] at h; simp [mkFail] at h

/-- Claim C8, witness at a concrete successful BIOS run. -/
theorem c8_witness :
    (add_limine_bootloader envBios argsNoEfi).outcome = none ∧
    (add_limine_bootloader envBios argsNoEfi).bootloader_flag = some "limine" :=
  ⟨rfl, (c8_flag_after_config envBios argsNoEfi rfl).1⟩

/-- Claim C3: the shell command embedded in the written upgrade hook is
byte-for-byte the rendering of a deployment action sequence whose file
placements and bios-install invocations, in installed-root coordinates,
match those the install itself performed: in UEFI mode the same two stub
copies into the EFI boot directory, in BIOS mode the same stage-3 copy
into /boot and the same bios-install invocation against the resolved
parent device. -/
theorem c3_hook_replays_install :
    (∀ env a efi mnt,
      env.has_uefi = true → a.efi_partition = some efi →
      efi.mountpoint = some mnt → env.efi_deploy_err = none →
      Event.writeFile (a.target ++ "/etc/pacman.d/hooks/99-limine.hook")
          (hook_contents (renderHookCmd (uefiHookActions mnt))) ∈
        (add_limine_bootloader env a).events ∧
      (add_limine_bootloader env a).events.filter isDeployStep =
        (uefiInstallActions mnt).map (toTargetEvent a.target) ∧
      placedFiles (uefiHookActions mnt) = placedFiles (uefiInstallActions mnt) ∧
      biosDevices (uefiHookActions mnt) = biosDevices (uefiInstallActions mnt)) ∧
    (∀ env a,
      env.has_uefi = false → env.bios_deploy_err = none →
      Event.writeFile (a.target ++ "/etc/pacman.d/hooks/99-limine.hook")
          (hook_contents (renderHookCmd (biosHookActions (resolvedParent env a)))) ∈
        (add_limine_bootloader env a).events ∧
      (add_limine_bootloader env a).events.filter isDeployStep =
        (biosInstallActions (resolvedParent env a)).map (toTargetEvent a.target) ∧
      placedFiles (biosHookActions (resolvedParent env a)) =
        placedFiles (biosInstallActions (resolvedParent env a)) ∧
      biosDevices (biosHookActions (resolvedParent env a)) =
        biosDevices (biosInstallActions (resolvedParent env a))) := by
  constructor
  · intro env a efi mnt h1 h2 h3 h4
    rw [run_uefi env a efi mnt h1 h2 h3 h4]
    refine ⟨?_, ?_, uefi_placed mnt, uefi_devices mnt⟩
    · rw [renderHookCmd_uefi]
      simp
    · simp [isDeployStep, uefiInstallActions, toTargetEvent,
        target_join_ia32, target_join_x64, target_join_efidir]
  · intro env a h1 h4
    rw [run_bios env a h1 h4]
    refine ⟨?_, ?_, bios_placed _, bios_devices _⟩
    · rw [renderHookCmd_bios]
      simp
    · simp [isDeployStep, biosInstallActions, toTargetEvent, target_join_stage3]

/-- Claim C3, witness at concrete UEFI and BIOS runs. -/
theorem c3_witness :
    placedFiles (uefiHookActions "/boot/efi") = placedFiles (uefiInstallActions "/boot/efi") ∧
    placedFiles (biosHookActions (resolvedParent envBios argsNoEfi)) =
      placedFiles (biosInstallActions (resolvedParent envBios argsNoEfi)) :=
  ⟨(c3_hook_replays_install.1 envUefi argsMounted ⟨"/dev/sda1", "/dev/sda1", some "/boot/efi"⟩
      "/boot/efi" rfl rfl rfl rfl).2.2.1,
   (c3_hook_replays_install.2 envBios argsNoEfi rfl rfl).2.2.1⟩

end LimineInstall
